import Mathlib

/-!
Verification of the dual-backend storage coordinator of the url-shortener
service (package `multiStorage` together with its two backend adapters,
packages `sqlite` and `mongodb`, and the shared error sentinels of package
`storage`).

The Go code is shallowly embedded as pure Lean functions:

* Each backend's persistent store becomes an explicit state value
  (`SqliteState`, `MongoState`) that every adapter operation takes and
  returns; a SQL table or document collection is a list of rows/documents.
* Go `error` values become `Option Err`, where `Err` mirrors how the code
  builds errors: `errors.New` sentinels, `fmt.Errorf` with `%w` (wrapping,
  visible to `errors.Is`), and `fmt.Errorf` with `%v` (message formatting
  only, NOT visible to `errors.Is`).  Every sentinel in scope carries a
  distinct message string, so structural equality of `Err` values coincides
  with Go's pointer identity of the sentinels.
* A backend connection that is operationally down is modelled by an explicit
  `up : Bool` argument on each adapter call: when `false`, the first
  round-trip to the database fails with a driver-level error, which the
  adapter wraps exactly where the Go code wraps it.
* MongoDB document `_id` values are BSON values: an ObjectID (whose first
  four bytes encode a creation timestamp in seconds) or an int64.  BSON
  equality across these two types is never true, which the derived
  decidable equality of the `BsonVal` sum captures.
* `int64` database identifiers become `Int` (no claim involves overflow).
-/

/-- Go `error` values as built by this codebase: `errors.New` sentinels,
`fmt.Errorf("...: %w", err)` wrapping (unwrappable, so `errors.Is` sees the
cause), and `fmt.Errorf` with `%v` verbs (the cause is only formatted into
the message; `errors.Is` cannot see through it). -/
inductive Err where
  | sentinel (msg : String)
  | wrap (pre : String) (cause : Err)
  | fmtv (pre : String) (cause : Err)
  | fmtv2 (pre mid : String) (c1 c2 : Err)
  deriving DecidableEq, Repr

/-- Semantics of Go `errors.Is(e, target)`: equality, or unwrap through
`%w`-wrapped errors.  `%v`-formatted errors do not unwrap. -/
def Err.is (e target : Err) : Bool :=
  (e == target) ||
    match e with
    | .wrap _ cause => cause.is target
    | _ => false

/-- The message `err.Error()` would render. -/
def Err.msg : Err → String
  | .sentinel m => m
  | .wrap pre cause => pre ++ cause.msg
  | .fmtv pre cause => pre ++ cause.msg
  | .fmtv2 pre mid c1 c2 => pre ++ c1.msg ++ mid ++ c2.msg

namespace storage

/-- Sentinel from `internal/storage`: `errors.New("Url not found")`. -/
def ErrURLNotFound : Err := .sentinel "Url not found"

/-- Sentinel from `internal/storage`: `errors.New("Url exists")`. -/
def ErrURLExists : Err := .sentinel "Url exists"

/-- Sentinel from `internal/storage`: `errors.New("User exists")`. -/
def ErrUserExists : Err := .sentinel "User exists"

/-- Sentinel from `internal/storage`: `errors.New("User not found")`. -/
def ErrUserNotFound : Err := .sentinel "User not found"

/-- Sentinel from `internal/storage`: `errors.New("Unauthorized")`. -/
def ErrUnauthorized : Err := .sentinel "Unauthorized"

end storage

/-- The `database/sql` sentinel `sql.ErrNoRows`. -/
def errNoRows : Err := .sentinel "sql: no rows in result set"

/-- Model of a driver-level operational failure of the SQLite connection
(returned by `Prepare`/`QueryRow` when the store is unreachable). -/
def errSqliteDown : Err := .sentinel "sqlite: database unreachable"

/-- Model of a driver-level operational failure of the MongoDB connection
(returned by the driver when the store is unreachable). -/
def errMongoDown : Err := .sentinel "mongo: server unreachable"

/-- Model of a `bson` decode failure (a stored `_id` that cannot be decoded
into the Go struct's `primitive.ObjectID` field). -/
def errMongoDecode : Err := .sentinel "mongo: decode error"

/-- Whether `errors.Is` relates `e` to one of the five domain sentinels of
`internal/storage`. -/
def isDomainErr (e : Err) : Bool :=
  e.is storage.ErrURLNotFound || e.is storage.ErrURLExists ||
  e.is storage.ErrUserExists || e.is storage.ErrUserNotFound ||
  e.is storage.ErrUnauthorized

/-- A MongoDB ObjectID.  Its first four bytes are the creation time in
seconds (`oid.Timestamp().Unix()` recovers exactly this value); the
remaining bytes are collapsed into `rest`. -/
structure ObjectID where
  timestamp : Nat
  rest : Nat
  deriving DecidableEq, Repr

/-- A BSON value as used for `_id` fields in this codebase: either a native
ObjectID (assigned by `InsertOne`) or an int64.  The derived equality is
BSON equality: values of the two different types are never equal. -/
inductive BsonVal where
  | objectId (o : ObjectID)
  | int64 (i : Int)
  deriving DecidableEq, Repr

/-- Remove the first element matching `p` (Mongo `DeleteOne`). -/
def deleteOne {α : Type} (p : α → Bool) : List α → List α
  | [] => []
  | x :: xs => if p x then xs else x :: deleteOne p xs

/-! ## SQLite adapter (package `sqlite`)

Relational state: table `users(id, nickname UNIQUE, password_hash)` and
table `urls(id, alias UNIQUE, url, user_id)`.  (Go's `alias` is a reserved
word in Lean, hence the field name `alias0`.)  The `FOREIGN KEY` clause of
`urls` is declared but never enforced: the driver's `foreign_keys` pragma
is left at its default (off). -/

/-- A row of the `users` table. -/
structure UserRow where
  id : Int
  nickname : String
  password_hash : String
  deriving DecidableEq, Repr

/-- A row of the `urls` table (the unread `id` column is omitted). -/
structure URLRow where
  alias0 : String
  url : String
  user_id : Int
  deriving DecidableEq, Repr

/-- The SQLite store. -/
structure SqliteState where
  users : List UserRow
  urls : List URLRow
  deriving DecidableEq, Repr

namespace sqlite

/-- Go `sqlite.Storage.SaveURL`: INSERT into `urls`; a collision on the UNIQUE
`alias` column is mapped to `storage.ErrURLExists` (wrapped with the op
name); any other driver failure is wrapped as an operational error. -/
def SaveURL (up : Bool) (s : SqliteState) (urlToSave alias0 : String)
    (userID : Int) : SqliteState × Option Err :=
  if !up then
    (s, some (.wrap "storage.sqlite.SaveURL: prepare statement: " errSqliteDown))
  else if s.urls.any (fun r => r.alias0 == alias0) then
    (s, some (.wrap "storage.sqlite.SaveURL: " storage.ErrURLExists))
  else
    ({ s with urls := s.urls ++ [⟨alias0, urlToSave, userID⟩] }, none)

/-- Go `sqlite.Storage.GetURL`: three sequential queries — (a) `SELECT 1 ...
WHERE alias = ?` existence check (`storage.ErrURLNotFound` on no rows), (b)
`SELECT user_id ... WHERE alias = ?` ownership check
(`storage.ErrUnauthorized` on mismatch), (c) `SELECT url ... WHERE alias =
? AND user_id = ?` value fetch. -/
def GetURL (up : Bool) (s : SqliteState) (alias0 : String) (userID : Int) :
    String × Option Err :=
  if !up then
    ("", some (.wrap "storage.sqlite.GetURL: prepare existence check statement: " errSqliteDown))
  else
    match s.urls.find? (fun r => r.alias0 == alias0) with
    | none => ("", some storage.ErrURLNotFound)
    | some _ =>
      match s.urls.find? (fun r => r.alias0 == alias0) with
      | none =>
        ("", some (.wrap "storage.sqlite.GetURL: execute ownership check statement: " errNoRows))
      | some row =>
        if row.user_id != userID then
          ("", some storage.ErrUnauthorized)
        else
          match s.urls.find? (fun r => r.alias0 == alias0 && r.user_id == userID) with
          | none =>
            ("", some (.wrap "storage.sqlite.GetURL: execute get URL statement: " errNoRows))
          | some r2 => (r2.url, none)

/-- Go `sqlite.Storage.SaveUser`: INSERT into `users`; a collision on the
UNIQUE `nickname` column maps to `storage.ErrUserExists`; on success the
freshly assigned rowid (`LastInsertId`) is returned. -/
def SaveUser (up : Bool) (s : SqliteState) (nickname passwordHash : String) :
    SqliteState × Int × Option Err :=
  if !up then
    (s, 0, some (.wrap "storage.sqlite.SaveUser: " errSqliteDown))
  else if s.users.any (fun u => u.nickname == nickname) then
    (s, 0, some (.wrap "storage.sqlite.SaveUser: " storage.ErrUserExists))
  else
    let id := (s.users.foldl (fun a u => max a u.id) 0) + 1
    ({ s with users := s.users ++ [⟨id, nickname, passwordHash⟩] }, id, none)

/-- Go `sqlite.Storage.GetUserByNickname`: `SELECT id, password_hash FROM
users WHERE nickname = ?`; no rows maps to the bare sentinel
`storage.ErrUserNotFound`. -/
def GetUserByNickname (up : Bool) (s : SqliteState) (nickname : String) :
    Int × String × Option Err :=
  if !up then
    (0, "", some (.wrap "storage.sqlite.GetUserByNickname: prepare statement: " errSqliteDown))
  else
    match s.users.find? (fun u => u.nickname == nickname) with
    | none => (0, "", some storage.ErrUserNotFound)
    | some u => (u.id, u.password_hash, none)

/-- Go `sqlite.Storage.DeleteUserByNickname`: one transaction that resolves
the user's id (`sql.ErrNoRows` is wrapped as an operational failure, NOT
mapped to `storage.ErrUserNotFound`), counts the user's URLs, refuses with
a plain formatted error when the count is zero, else deletes the URLs and
the user row and commits.  Every error path leaves the transaction
uncommitted (`defer tx.Rollback()`), so the state is unchanged on error. -/
def DeleteUserByNickname (up : Bool) (s : SqliteState) (nickname : String) :
    SqliteState × Option Err :=
  if !up then
    (s, some (.wrap "storage.sqlite.DeleteUserByNickname: failed to begin transaction: " errSqliteDown))
  else
    match s.users.find? (fun u => u.nickname == nickname) with
    | none =>
      (s, some (.wrap "storage.sqlite.DeleteUserByNickname: execute get user ID statement: " errNoRows))
    | some u =>
      let urlCount := (s.urls.filter (fun r => r.user_id == u.id)).length
      if urlCount == 0 then
        (s, some (.sentinel "storage.sqlite.DeleteUserByNickname: no URLs found for user"))
      else
        ({ users := s.users.filter (fun x => !(x.id == u.id)),
           urls := s.urls.filter (fun r => !(r.user_id == u.id)) }, none)

end sqlite

/-! ## MongoDB adapter (package `mongodb`)

Document state: collection `urls` (documents with `url`, `alias`,
`user_id`; their `_id` is never read) and collection `users` (documents
with a native `_id`, plus `nickname`, `password_hash` and the relational
`user_id` propagated as a plain int64 field). -/

/-- A document of the `urls` collection. -/
structure MongoURLDoc where
  url : String
  alias0 : String
  user_id : Int
  deriving DecidableEq, Repr

/-- A document of the `users` collection.  `_id` is the store's native
identifier (an ObjectID when the document was inserted by `SaveUser`);
`user_id` is the relational backend's numeric identifier stored as a plain
field. -/
structure MongoUserDoc where
  _id : BsonVal
  nickname : String
  password_hash : String
  user_id : Int
  deriving DecidableEq, Repr

/-- The MongoDB store. -/
structure MongoState where
  users : List MongoUserDoc
  urls : List MongoURLDoc
  deriving DecidableEq, Repr

namespace mongodb

/-- Go `mongodb.Storage.SaveURL`: a `CountDocuments` existence pre-check on
`alias` (maps a hit to `storage.ErrURLExists`), then `InsertOne`. -/
def SaveURL (up : Bool) (m : MongoState) (urlToSave alias0 : String)
    (userID : Int) : MongoState × Option Err :=
  if !up then
    (m, some (.wrap "mongodb.SaveURL: count documents: " errMongoDown))
  else if m.urls.any (fun r => r.alias0 == alias0) then
    (m, some (.wrap "mongodb.SaveURL: " storage.ErrURLExists))
  else
    ({ m with urls := m.urls ++ [⟨urlToSave, alias0, userID⟩] }, none)

/-- Go `mongodb.Storage.GetURL`: `FindOne` on `alias`
(`storage.ErrURLNotFound` when no document), then an ownership comparison
on the decoded `user_id` field (`storage.ErrUnauthorized` on mismatch),
then the decoded `url` value. -/
def GetURL (up : Bool) (m : MongoState) (alias0 : String) (userID : Int) :
    String × Option Err :=
  if !up then
    ("", some (.wrap "mongodb.GetURL: find document: " errMongoDown))
  else
    match m.urls.find? (fun r => r.alias0 == alias0) with
    | none => ("", some storage.ErrURLNotFound)
    | some doc =>
      if doc.user_id != userID then
        ("", some storage.ErrUnauthorized)
      else
        (doc.url, none)

/-- Go `mongodb.Storage.SaveUser`: a `CountDocuments` existence pre-check on
`nickname` (maps a hit to `storage.ErrUserExists`), then `InsertOne`,
which assigns a fresh native ObjectID `_id` (the driver-generated ObjectID
is made an explicit argument). -/
def SaveUser (up : Bool) (oid : ObjectID) (m : MongoState)
    (nickname passwordHash : String) (userID : Int) : MongoState × Option Err :=
  if !up then
    (m, some (.wrap "mongodb.SaveUser: count documents: " errMongoDown))
  else if m.users.any (fun u => u.nickname == nickname) then
    (m, some (.wrap "mongodb.SaveUser: " storage.ErrUserExists))
  else
    ({ m with users := m.users ++ [⟨.objectId oid, nickname, passwordHash, userID⟩] }, none)

/-- Go `mongodb.Storage.GetUserByNickname`: `FindOne` on `nickname`
(`storage.ErrUserNotFound` when no document), decoding `_id` into an
ObjectID and `password_hash`; the returned userID is
`int64(doc.ID.Timestamp().Unix())` — the creation timestamp embedded in
the native ObjectID, NOT the stored `user_id` field. -/
def GetUserByNickname (up : Bool) (m : MongoState) (nickname : String) :
    Int × String × Option Err :=
  if !up then
    (0, "", some (.wrap "mongodb.GetUserByNickname: find document: " errMongoDown))
  else
    match m.users.find? (fun u => u.nickname == nickname) with
    | none => (0, "", some storage.ErrUserNotFound)
    | some doc =>
      match doc._id with
      | .objectId o => ((o.timestamp : Int), doc.password_hash, none)
      | .int64 _ =>
        (0, "", some (.wrap "mongodb.GetUserByNickname: find document: " errMongoDecode))

/-- Go `mongodb.Storage.DeleteUserByNickname`: inside a session, `FindOne` the
user by `nickname` (decoding the int64 `user_id` field as `doc.ID`;
`storage.ErrUserNotFound` when absent), `DeleteMany` the `urls` documents
whose `user_id` equals `doc.ID`, then `DeleteOne` on the `users` collection
with filter `\x7b"_id": doc.ID\x7d` — an int64 compared against each
document's native `_id`.  Any error of the session body is wrapped with
"transaction failed". -/
def DeleteUserByNickname (up : Bool) (m : MongoState) (nickname : String) :
    MongoState × Option Err :=
  if !up then
    (m, some (.wrap "mongodb.DeleteUserByNickname: transaction failed: "
      (.wrap "mongodb.DeleteUserByNickname: find user: " errMongoDown)))
  else
    match m.users.find? (fun u => u.nickname == nickname) with
    | none =>
      (m, some (.wrap "mongodb.DeleteUserByNickname: transaction failed: " storage.ErrUserNotFound))
    | some doc =>
      ({ users := deleteOne (fun u => u._id == BsonVal.int64 doc.user_id) m.users,
         urls := m.urls.filter (fun r => !(r.user_id == doc.user_id)) }, none)

end mongodb

/-! ## Coordinator (package `multiStorage`)

`DualStorage` holds both adapters; the health of each backend connection
during an operation is carried alongside the two stores. -/

/-- The coordinator's world: both stores plus the operational health of
each backend connection. -/
structure DualState where
  sqliteUp : Bool
  mongoUp : Bool
  sqlite : SqliteState
  mongo : MongoState
  deriving DecidableEq, Repr

namespace DualStorage

/-- Go `DualStorage.SaveURL`: write SQLite first; on any error return it (the
MongoDB write is never attempted); on success write MongoDB and return its
error, if any. -/
def SaveURL (ds : DualState) (urlToSave alias0 : String) (userID : Int) :
    DualState × Option Err :=
  let rs := sqlite.SaveURL ds.sqliteUp ds.sqlite urlToSave alias0 userID
  let ds1 := { ds with sqlite := rs.1 }
  match rs.2 with
  | some e => (ds1, some e)
  | none =>
    let rm := mongodb.SaveURL ds.mongoUp ds.mongo urlToSave alias0 userID
    let ds2 := { ds1 with mongo := rm.1 }
    match rm.2 with
    | some e => (ds2, some e)
    | none => (ds2, none)

/-- Go `DualStorage.GetURL`: read SQLite first; on success return `(url,
nil)` immediately; otherwise read MongoDB and return its URL on success or
`("", err)` on failure. -/
def GetURL (ds : DualState) (alias0 : String) (userID : Int) :
    String × Option Err :=
  let rs := sqlite.GetURL ds.sqliteUp ds.sqlite alias0 userID
  match rs.2 with
  | none => (rs.1, none)
  | some _ =>
    let rm := mongodb.GetURL ds.mongoUp ds.mongo alias0 userID
    match rm.2 with
    | none => (rm.1, none)
    | some e => ("", some e)

/-- Go `DualStorage.GetUserByNickname`: query BOTH backends unconditionally,
then merge through the Go `switch` translated branch for branch, including
its (intended-unreachable) `default` arm returning `errors.New("unexpected
error")`.  The `Option.getD` defaults mirror Go, where the error variable
is statically non-nil inside the corresponding `case` bodies. -/
def GetUserByNickname (ds : DualState) (nickname : String) :
    Int × String × Option Err :=
  let rs := sqlite.GetUserByNickname ds.sqliteUp ds.sqlite nickname
  let sqliteUserID := rs.1
  let hash := rs.2.1
  let errSqliteGetUser := rs.2.2
  let rm := mongodb.GetUserByNickname ds.mongoUp ds.mongo nickname
  let mongoUserID := rm.1
  let errMongoGetUser := rm.2.2
  if errSqliteGetUser.isNone && errMongoGetUser.isNone then
    (sqliteUserID, hash, none)
  else if errSqliteGetUser.isSome && errMongoGetUser.isSome then
    (0, "", some (Err.fmtv2 "SQLite error: " ", MongoDB error: "
      (errSqliteGetUser.getD (.sentinel "")) (errMongoGetUser.getD (.sentinel ""))))
  else if errSqliteGetUser.isSome then
    (mongoUserID, "", some (Err.fmtv "SQLite error: " (errSqliteGetUser.getD (.sentinel ""))))
  else if errMongoGetUser.isSome then
    (sqliteUserID, hash, some (Err.fmtv "MongoDB error: " (errMongoGetUser.getD (.sentinel ""))))
  else
    (0, "", some (.sentinel "unexpected error"))

/-- Go `DualStorage.DeleteUserByNickname`: delete from SQLite first; on any
error return it (MongoDB is never touched); on success delete from MongoDB
and return its error, if any. -/
def DeleteUserByNickname (ds : DualState) (nickname : String) :
    DualState × Option Err :=
  let rs := sqlite.DeleteUserByNickname ds.sqliteUp ds.sqlite nickname
  let ds1 := { ds with sqlite := rs.1 }
  match rs.2 with
  | some e => (ds1, some e)
  | none =>
    let rm := mongodb.DeleteUserByNickname ds.mongoUp ds.mongo nickname
    let ds2 := { ds1 with mongo := rm.1 }
    match rm.2 with
    | some e => (ds2, some e)
    | none => (ds2, none)

end DualStorage

/-! ## Helper lemmas -/

/-- If the first `alias` match in the table is `row` and `row` belongs to
`uid`, then the first match of the combined `alias AND user_id` query is
the same row (rows before it fail the `alias` test, hence the conjunction). -/
theorem find?_alias_and_uid (l : List URLRow) (a : String) (uid : Int) (row : URLRow)
    (h : l.find? (fun r => r.alias0 == a) = some row) (hq : row.user_id = uid) :
    l.find? (fun r => r.alias0 == a && r.user_id == uid) = some row := by
  induction l with
  | nil => simp at h
  | cons x xs ih =>
    rw [List.find?_cons] at h
    rw [List.find?_cons]
    by_cases hx : x.alias0 == a
    · simp only [hx] at h
      injection h with h
      subst h
      simp [hx, hq]
    · simp only [Bool.not_eq_true] at hx
      simp only [hx] at h
      simp only [hx, Bool.false_and]
      exact ih h

/-- On mongo, an erroring `GetURL` always carries the empty string as its
URL component. -/
theorem mongoGetURL_err_empty (up : Bool) (m : MongoState) (a : String) (uid : Int)
    (h : (mongodb.GetURL up m a uid).2.isSome = true) :
    (mongodb.GetURL up m a uid).1 = "" := by
  cases up with
  | false => simp [mongodb.GetURL]
  | true =>
    simp only [mongodb.GetURL] at h ⊢
    cases hf : m.urls.find? (fun r => r.alias0 == a) with
    | none => simp [hf]
    | some doc =>
      simp only [hf] at h ⊢
      by_cases hu : doc.user_id != uid
      · simp [hu]
      · simp [hu] at h ⊢

/-- Every error path of the relational cascade delete leaves the store
unchanged (the transaction is rolled back by the deferred `tx.Rollback()`). -/
theorem sqliteDeleteUser_rollback (up : Bool) (s : SqliteState) (n : String)
    (h : (sqlite.DeleteUserByNickname up s n).2 ≠ none) :
    (sqlite.DeleteUserByNickname up s n).1 = s := by
  cases up with
  | false => simp [sqlite.DeleteUserByNickname]
  | true =>
    simp only [sqlite.DeleteUserByNickname] at h ⊢
    cases hf : s.users.find? (fun u => u.nickname == n) with
    | none => simp [hf]
    | some u =>
      simp only [hf] at h ⊢
      by_cases hc : ((s.urls.filter (fun r => r.user_id == u.id)).length == 0)
      · simp [hc]
      · simp [hc] at h

/-! ## Claims -/

/-- C3: the coordinator's GetURL reads the relational backend first; if
that read succeeds it returns its result and the outcome is independent of
the document backend (never consulted); if the relational read fails for
any reason, the coordinator's result is exactly the document backend's
result. -/
theorem C3_getURL_relational_first (ds : DualState) (alias0 : String) (userID : Int) :
    (∀ url, sqlite.GetURL ds.sqliteUp ds.sqlite alias0 userID = (url, none) →
      DualStorage.GetURL ds alias0 userID = (url, none) ∧
      ∀ m mu, DualStorage.GetURL { ds with mongo := m, mongoUp := mu } alias0 userID = (url, none)) ∧
    ((sqlite.GetURL ds.sqliteUp ds.sqlite alias0 userID).2.isSome = true →
      DualStorage.GetURL ds alias0 userID = mongodb.GetURL ds.mongoUp ds.mongo alias0 userID) := by
  constructor
  · intro url h
    constructor
    · simp [DualStorage.GetURL, h]
    · intro m mu
      simp [DualStorage.GetURL, h]
  · intro h
    cases he : (sqlite.GetURL ds.sqliteUp ds.sqlite alias0 userID).2 with
    | none => rw [he] at h; simp at h
    | some e =>
      cases hm : (mongodb.GetURL ds.mongoUp ds.mongo alias0 userID).2 with
      | none =>
        simp only [DualStorage.GetURL, he, hm]
        rw [← hm]
      | some em =>
        have hemp : (mongodb.GetURL ds.mongoUp ds.mongo alias0 userID).1 = "" :=
          mongoGetURL_err_empty _ _ _ _ (by rw [hm]; rfl)
        simp only [DualStorage.GetURL, he, hm]
        rw [← hemp, ← hm]

/-- C3 witness: with a concrete dual store, a relational hit is returned
as-is, and a relational miss yields exactly the document backend's result. -/
theorem C3_getURL_relational_first_witness :
    DualStorage.GetURL ⟨true, true, ⟨[], [⟨"a1", "hs", 7⟩]⟩, ⟨[], [⟨"hm", "b1", 8⟩]⟩⟩ "a1" 7
      = ("hs", none) ∧
    DualStorage.GetURL ⟨true, true, ⟨[], [⟨"a1", "hs", 7⟩]⟩, ⟨[], [⟨"hm", "b1", 8⟩]⟩⟩ "b1" 8
      = mongodb.GetURL true ⟨[], [⟨"hm", "b1", 8⟩]⟩ "b1" 8 :=
  ⟨((C3_getURL_relational_first ⟨true, true, ⟨[], [⟨"a1", "hs", 7⟩]⟩, ⟨[], [⟨"hm", "b1", 8⟩]⟩⟩
      "a1" 7).1 "hs" rfl).1,
   (C3_getURL_relational_first ⟨true, true, ⟨[], [⟨"a1", "hs", 7⟩]⟩, ⟨[], [⟨"hm", "b1", 8⟩]⟩⟩
      "b1" 8).2 rfl⟩

/-- C9: the four listed cases of GetUserByNickname's outcome analysis cover
every combination of the two lookup outcomes, so the `default` arm is dead:
the function never returns the `errors.New("unexpected error")` value. -/
theorem C9_default_unreachable (ds : DualState) (nickname : String) :
    DualStorage.GetUserByNickname ds nickname ≠ (0, "", some (.sentinel "unexpected error")) := by
  simp only [DualStorage.GetUserByNickname]
  cases hS : (sqlite.GetUserByNickname ds.sqliteUp ds.sqlite nickname).2.2 with
  | none =>
    cases hM : (mongodb.GetUserByNickname ds.mongoUp ds.mongo nickname).2.2 with
    | none => simp [hS, hM]
    | some eM => simp [hS, hM]
  | some eS =>
    cases hM : (mongodb.GetUserByNickname ds.mongoUp ds.mongo nickname).2.2 with
    | none => simp [hS, hM]
    | some eM => simp [hS, hM]

/-- C6: both adapters' GetURL perform the three-step check: NotFound when
the alias is absent, Unauthorized when the stored owner differs from the
requesting owner, and otherwise the stored URL value. -/
theorem C6_getRecord_three_step (s : SqliteState) (m : MongoState) (alias0 : String) (userID : Int) :
    ((s.urls.find? (fun r => r.alias0 == alias0) = none →
        sqlite.GetURL true s alias0 userID = ("", some storage.ErrURLNotFound)) ∧
     (∀ row, s.urls.find? (fun r => r.alias0 == alias0) = some row →
        (row.user_id ≠ userID → sqlite.GetURL true s alias0 userID = ("", some storage.ErrUnauthorized)) ∧
        (row.user_id = userID → sqlite.GetURL true s alias0 userID = (row.url, none)))) ∧
    ((m.urls.find? (fun r => r.alias0 == alias0) = none →
        mongodb.GetURL true m alias0 userID = ("", some storage.ErrURLNotFound)) ∧
     (∀ doc, m.urls.find? (fun r => r.alias0 == alias0) = some doc →
        (doc.user_id ≠ userID → mongodb.GetURL true m alias0 userID = ("", some storage.ErrUnauthorized)) ∧
        (doc.user_id = userID → mongodb.GetURL true m alias0 userID = (doc.url, none)))) := by
  refine ⟨⟨?_, ?_⟩, ?_, ?_⟩
  · intro h
    simp [sqlite.GetURL, h]
  · intro row hrow
    refine ⟨?_, ?_⟩
    · intro hne
      simp [sqlite.GetURL, hrow, hne]
    · intro heq
      have hc := find?_alias_and_uid s.urls alias0 userID row hrow heq
      simp [sqlite.GetURL, hrow, heq, hc]
  · intro h
    simp [mongodb.GetURL, h]
  · intro doc hdoc
    refine ⟨?_, ?_⟩
    · intro hne
      simp [mongodb.GetURL, hdoc, hne]
    · intro heq
      simp [mongodb.GetURL, hdoc, heq]

/-- C6 witness: on a concrete store, an owned alias yields its URL, and an
alias owned by someone else yields Unauthorized. -/
theorem C6_getRecord_three_step_witness :
    sqlite.GetURL true ⟨[], [⟨"a1", "hs", 7⟩]⟩ "a1" 7 = ("hs", none) ∧
    mongodb.GetURL true ⟨[], [⟨"hm", "b1", 8⟩]⟩ "b1" 9 = ("", some storage.ErrUnauthorized) :=
  ⟨((C6_getRecord_three_step ⟨[], [⟨"a1", "hs", 7⟩]⟩ ⟨[], [⟨"hm", "b1", 8⟩]⟩ "a1" 7).1.2
      ⟨"a1", "hs", 7⟩ rfl).2 rfl,
   ((C6_getRecord_three_step ⟨[], [⟨"a1", "hs", 7⟩]⟩ ⟨[], [⟨"hm", "b1", 8⟩]⟩ "b1" 9).2.2
      ⟨"hm", "b1", 8⟩ rfl).1 (by decide)⟩

/-- C7: when both lookups fail, GetUserByNickname returns userID 0, an
empty passwordHash, and one non-nil error that names both causes (its
message interpolates both underlying messages); that error is not related
to any of the three domain kinds by `errors.Is`. -/
theorem C7_both_fail (ds : DualState) (nickname : String) (eS eM : Err)
    (hS : (sqlite.GetUserByNickname ds.sqliteUp ds.sqlite nickname).2.2 = some eS)
    (hM : (mongodb.GetUserByNickname ds.mongoUp ds.mongo nickname).2.2 = some eM) :
    DualStorage.GetUserByNickname ds nickname =
      (0, "", some (Err.fmtv2 "SQLite error: " ", MongoDB error: " eS eM)) ∧
    isDomainErr (Err.fmtv2 "SQLite error: " ", MongoDB error: " eS eM) = false ∧
    (Err.fmtv2 "SQLite error: " ", MongoDB error: " eS eM).msg =
      "SQLite error: " ++ eS.msg ++ ", MongoDB error: " ++ eM.msg := by
  refine ⟨?_, ?_, rfl⟩
  · simp [DualStorage.GetUserByNickname, hS, hM]
  · simp [isDomainErr, Err.is, storage.ErrURLNotFound, storage.ErrURLExists,
      storage.ErrUserExists, storage.ErrUserNotFound, storage.ErrUnauthorized]

/-- C7 witness: with both stores empty and healthy, looking up an unknown
nickname fails in both backends and yields the combined error. -/
theorem C7_both_fail_witness :
    DualStorage.GetUserByNickname ⟨true, true, ⟨[], []⟩, ⟨[], []⟩⟩ "zed" =
      (0, "", some (Err.fmtv2 "SQLite error: " ", MongoDB error: "
        storage.ErrUserNotFound storage.ErrUserNotFound)) ∧
    isDomainErr (Err.fmtv2 "SQLite error: " ", MongoDB error: "
        storage.ErrUserNotFound storage.ErrUserNotFound) = false :=
  ⟨(C7_both_fail ⟨true, true, ⟨[], []⟩, ⟨[], []⟩⟩ "zed"
      storage.ErrUserNotFound storage.ErrUserNotFound rfl rfl).1,
   (C7_both_fail ⟨true, true, ⟨[], []⟩, ⟨[], []⟩⟩ "zed"
      storage.ErrUserNotFound storage.ErrUserNotFound rfl rfl).2.1⟩

/-- C4: saving a URL whose alias already exists in the relational backend
returns an error that `errors.Is`-matches ErrURLExists, and leaves the
whole dual state (both stores) unchanged — the document backend is never
written. -/
theorem C4_save_conflict (ds : DualState) (urlToSave alias0 : String) (userID : Int)
    (hup : ds.sqliteUp = true)
    (hex : ds.sqlite.urls.any (fun r => r.alias0 == alias0) = true) :
    DualStorage.SaveURL ds urlToSave alias0 userID =
      (ds, some (Err.wrap "storage.sqlite.SaveURL: " storage.ErrURLExists)) ∧
    Err.is (Err.wrap "storage.sqlite.SaveURL: " storage.ErrURLExists) storage.ErrURLExists = true := by
  constructor
  · simp [DualStorage.SaveURL, sqlite.SaveURL, hup, hex]
    rw [← hup]
  · decide

/-- C4 witness: a concrete conflicting save returns AlreadyExists and
leaves the state untouched. -/
theorem C4_save_conflict_witness :
    DualStorage.SaveURL ⟨true, true, ⟨[], [⟨"a1", "hs", 7⟩]⟩, ⟨[], []⟩⟩ "hy" "a1" 9 =
      (⟨true, true, ⟨[], [⟨"a1", "hs", 7⟩]⟩, ⟨[], []⟩⟩,
       some (Err.wrap "storage.sqlite.SaveURL: " storage.ErrURLExists)) :=
  (C4_save_conflict ⟨true, true, ⟨[], [⟨"a1", "hs", 7⟩]⟩, ⟨[], []⟩⟩ "hy" "a1" 9 rfl rfl).1

/-- C5: deleting a user that owns zero URL records fails in the relational
adapter and hence in the coordinator, leaving the relational store (indeed
the whole dual state) unchanged; moreover, every failing run of the
relational cascade delete leaves the relational store unchanged
(transaction rollback). -/
theorem C5_delete_zero_urls (ds : DualState) (nickname : String) (u : UserRow)
    (hfind : ds.sqlite.users.find? (fun x => x.nickname == nickname) = some u)
    (hzero : ds.sqlite.urls.filter (fun r => r.user_id == u.id) = []) :
    ((sqlite.DeleteUserByNickname ds.sqliteUp ds.sqlite nickname).2 ≠ none ∧
     (sqlite.DeleteUserByNickname ds.sqliteUp ds.sqlite nickname).1 = ds.sqlite) ∧
    ((DualStorage.DeleteUserByNickname ds nickname).2 ≠ none ∧
     (DualStorage.DeleteUserByNickname ds nickname).1 = ds) ∧
    (∀ up s n, (sqlite.DeleteUserByNickname up s n).2 ≠ none →
       (sqlite.DeleteUserByNickname up s n).1 = s) := by
  have herr : (sqlite.DeleteUserByNickname ds.sqliteUp ds.sqlite nickname).2 ≠ none := by
    cases hup : ds.sqliteUp with
    | false => simp [sqlite.DeleteUserByNickname]
    | true => simp [sqlite.DeleteUserByNickname, hfind, hzero]
  have hst : (sqlite.DeleteUserByNickname ds.sqliteUp ds.sqlite nickname).1 = ds.sqlite :=
    sqliteDeleteUser_rollback _ _ _ herr
  refine ⟨⟨herr, hst⟩, ⟨?_, ?_⟩, fun up s n h => sqliteDeleteUser_rollback up s n h⟩
  · cases he : (sqlite.DeleteUserByNickname ds.sqliteUp ds.sqlite nickname).2 with
    | none => exact absurd he herr
    | some e => simp [DualStorage.DeleteUserByNickname, he]
  · cases he : (sqlite.DeleteUserByNickname ds.sqliteUp ds.sqlite nickname).2 with
    | none => exact absurd he herr
    | some e =>
      simp only [DualStorage.DeleteUserByNickname, he]
      rw [hst]

/-- C5 witness: registering "bob" and deleting him before he saves any URL
fails and leaves the state unchanged. -/
theorem C5_delete_zero_urls_witness :
    (DualStorage.DeleteUserByNickname
        ⟨true, true, ⟨[⟨1, "bob", "hb"⟩], []⟩, ⟨[⟨.objectId ⟨10, 0⟩, "bob", "hb", 1⟩], []⟩⟩
        "bob").2 ≠ none ∧
    (DualStorage.DeleteUserByNickname
        ⟨true, true, ⟨[⟨1, "bob", "hb"⟩], []⟩, ⟨[⟨.objectId ⟨10, 0⟩, "bob", "hb", 1⟩], []⟩⟩
        "bob").1 =
      ⟨true, true, ⟨[⟨1, "bob", "hb"⟩], []⟩, ⟨[⟨.objectId ⟨10, 0⟩, "bob", "hb", 1⟩], []⟩⟩ :=
  (C5_delete_zero_urls
    ⟨true, true, ⟨[⟨1, "bob", "hb"⟩], []⟩, ⟨[⟨.objectId ⟨10, 0⟩, "bob", "hb", 1⟩], []⟩⟩
    "bob" ⟨1, "bob", "hb"⟩ rfl rfl).2.1

/-- C10: deleting a nickname absent from both backends aborts inside the
relational adapter with the no-rows condition wrapped as an operational
failure — not ErrUserNotFound, not ErrURLNotFound — the whole dual state is
unchanged and the document adapter (whose own ErrUserNotFound path would
have fired) is never reached. -/
theorem C10_delete_absent_no_notfound (ds : DualState) (nickname : String)
    (hup : ds.sqliteUp = true)
    (hS : ds.sqlite.users.find? (fun u => u.nickname == nickname) = none)
    (hM : ds.mongo.users.find? (fun u => u.nickname == nickname) = none) :
    DualStorage.DeleteUserByNickname ds nickname =
      (ds, some (Err.wrap
        "storage.sqlite.DeleteUserByNickname: execute get user ID statement: " errNoRows)) ∧
    Err.is (Err.wrap
        "storage.sqlite.DeleteUserByNickname: execute get user ID statement: " errNoRows)
      storage.ErrUserNotFound = false ∧
    Err.is (Err.wrap
        "storage.sqlite.DeleteUserByNickname: execute get user ID statement: " errNoRows)
      storage.ErrURLNotFound = false := by
  refine ⟨?_, by decide, by decide⟩
  simp [DualStorage.DeleteUserByNickname, sqlite.DeleteUserByNickname, hup, hS]
  rw [← hup]

/-- C10 witness: deleting an unknown nickname from the empty dual store
returns the wrapped no-rows operational failure and changes nothing. -/
theorem C10_delete_absent_no_notfound_witness :
    DualStorage.DeleteUserByNickname ⟨true, true, ⟨[], []⟩, ⟨[], []⟩⟩ "ghost" =
      (⟨true, true, ⟨[], []⟩, ⟨[], []⟩⟩,
       some (Err.wrap
        "storage.sqlite.DeleteUserByNickname: execute get user ID statement: " errNoRows)) :=
  (C10_delete_absent_no_notfound ⟨true, true, ⟨[], []⟩, ⟨[], []⟩⟩ "ghost" rfl rfl rfl).1

/-- C8: with both backends healthy, an existing owner and an alias fresh in
both stores, SaveURL succeeds and an immediate GetURL with the same alias
and ownerID returns the original target URL with no error. -/
theorem C8_roundtrip (ds : DualState) (targetURL alias0 : String) (userID : Int)
    (hsu : ds.sqliteUp = true) (hmu : ds.mongoUp = true)
    (hfS : ∀ r ∈ ds.sqlite.urls, (r.alias0 == alias0) = false)
    (hfM : ∀ r ∈ ds.mongo.urls, (r.alias0 == alias0) = false)
    (howner : ∃ u ∈ ds.sqlite.users, u.id = userID) :
    (DualStorage.SaveURL ds targetURL alias0 userID).2 = none ∧
    DualStorage.GetURL (DualStorage.SaveURL ds targetURL alias0 userID).1 alias0 userID =
      (targetURL, none) := by
  have hanyS : ds.sqlite.urls.any (fun r => r.alias0 == alias0) = false :=
    List.any_eq_false.mpr (fun x hx => by simp [hfS x hx])
  have hanyM : ds.mongo.urls.any (fun r => r.alias0 == alias0) = false :=
    List.any_eq_false.mpr (fun x hx => by simp [hfM x hx])
  have hfindS : ds.sqlite.urls.find? (fun r => r.alias0 == alias0) = none :=
    List.find?_eq_none.mpr (fun x hx => by simp [hfS x hx])
  have hfindS2 : ds.sqlite.urls.find? (fun r => r.alias0 == alias0 && r.user_id == userID) = none :=
    List.find?_eq_none.mpr (fun x hx => by simp [hfS x hx])
  constructor
  · simp [DualStorage.SaveURL, sqlite.SaveURL, mongodb.SaveURL, hsu, hmu, hanyS, hanyM]
  · simp [DualStorage.SaveURL, sqlite.SaveURL, mongodb.SaveURL, hsu, hmu, hanyS, hanyM,
      DualStorage.GetURL, sqlite.GetURL, List.find?_append, hfindS, hfindS2]

/-- C8 witness: a concrete save of a fresh alias followed by a get with the
same alias and owner returns the saved URL. -/
theorem C8_roundtrip_witness :
    (DualStorage.SaveURL ⟨true, true, ⟨[⟨7, "dave", "hd"⟩], []⟩, ⟨[], []⟩⟩ "ht" "a9" 7).2 = none ∧
    DualStorage.GetURL
      (DualStorage.SaveURL ⟨true, true, ⟨[⟨7, "dave", "hd"⟩], []⟩, ⟨[], []⟩⟩ "ht" "a9" 7).1
      "a9" 7 = ("ht", none) :=
  C8_roundtrip ⟨true, true, ⟨[⟨7, "dave", "hd"⟩], []⟩, ⟨[], []⟩⟩ "ht" "a9" 7 rfl rfl
    (by simp) (by simp) ⟨⟨7, "dave", "hd"⟩, by simp, rfl⟩

/-- Dual state for the C1 scenario: the relational store is unreachable,
the document store is healthy and holds nickname "alice" stored with
`user_id` 42 and a native ObjectID whose embedded creation timestamp is
1000. -/
def c1State : DualState :=
  ⟨false, true, ⟨[], []⟩, ⟨[⟨.objectId ⟨1000, 0⟩, "alice", "ha", 42⟩], []⟩⟩

/-- C1 counterexample: in the claim's own scenario (relational lookup
fails, document lookup succeeds, "alice" stored with userID 42), the
returned userID is the ObjectID's embedded timestamp 1000, not the stored
42 — refuting "a user stored with userID=42 yields 42". -/
theorem C1_counterexample :
    ((c1State.mongo.users.find? (fun u => u.nickname == "alice")).map
      (fun u => u.user_id)) = some 42 ∧
    (DualStorage.GetUserByNickname c1State "alice").1 = 1000 ∧
    (1000 : Int) ≠ 42 :=
  ⟨rfl, rfl, by decide⟩

/-- C1 amended: when only the relational lookup fails and the document
lookup succeeds, GetUserByNickname returns the userID the document adapter
derives from the document's native ObjectID (its embedded creation
timestamp) — not the stored `user_id` field — together with an empty
passwordHash and a non-nil error describing the relational failure. -/
theorem C1_amended_fallback (ds : DualState) (nickname : String) (eS : Err)
    (o : ObjectID) (doc : MongoUserDoc)
    (hS : (sqlite.GetUserByNickname ds.sqliteUp ds.sqlite nickname).2.2 = some eS)
    (hmu : ds.mongoUp = true)
    (hM : ds.mongo.users.find? (fun u => u.nickname == nickname) = some doc)
    (hid : doc._id = .objectId o) :
    DualStorage.GetUserByNickname ds nickname =
      ((o.timestamp : Int), "", some (Err.fmtv "SQLite error: " eS)) := by
  simp [DualStorage.GetUserByNickname, mongodb.GetUserByNickname, hS, hmu, hM, hid]

/-- C1 witness: in the concrete scenario state, the fallback result is the
ObjectID-derived userID 1000, an empty hash, and the error naming the
relational failure. -/
theorem C1_amended_fallback_witness :
    DualStorage.GetUserByNickname c1State "alice" =
      (1000, "", some (Err.fmtv "SQLite error: "
        (Err.wrap "storage.sqlite.GetUserByNickname: prepare statement: " errSqliteDown))) :=
  C1_amended_fallback c1State "alice"
    (Err.wrap "storage.sqlite.GetUserByNickname: prepare statement: " errSqliteDown)
    ⟨1000, 0⟩ ⟨.objectId ⟨1000, 0⟩, "alice", "ha", 42⟩ rfl rfl rfl rfl

/-- Dual state for the C2 scenario: user "carol" (relational userID 7) with
one saved URL, alias "c1", present in both backends; her document-store
user document carries a native ObjectID `_id`. -/
def c2State : DualState :=
  ⟨true, true,
   ⟨[⟨7, "carol", "hc"⟩], [⟨"c1", "hu", 7⟩]⟩,
   ⟨[⟨.objectId ⟨500, 1⟩, "carol", "hc", 7⟩], [⟨"hu", "c1", 7⟩]⟩⟩

/-- C2: after a reported-successful cascade delete of "carol", her URL
records are gone from both stores, her relational user row is gone, and a
GetURL on her former alias returns NotFound — but her user document is
STILL PRESENT in the document store: the document adapter's final
`DeleteOne` filters on `_id` equal to the int64 `user_id` 7, which never
matches the native ObjectID `_id`, so the user-document deletion silently
removes nothing, contradicting the cascade the code's own comment and the
claim describe. -/
theorem C2_bug_user_doc_survives :
    (DualStorage.DeleteUserByNickname c2State "carol").2 = none ∧
    (DualStorage.DeleteUserByNickname c2State "carol").1.sqlite = ⟨[], []⟩ ∧
    (DualStorage.DeleteUserByNickname c2State "carol").1.mongo.urls = [] ∧
    DualStorage.GetURL (DualStorage.DeleteUserByNickname c2State "carol").1 "c1" 7 =
      ("", some storage.ErrURLNotFound) ∧
    ((DualStorage.DeleteUserByNickname c2State "carol").1.mongo.users.any
      (fun u => u.nickname == "carol")) = true :=
  ⟨rfl, rfl, rfl, rfl, rfl⟩
